import Mathlib

set_option maxHeartbeats 1000000

/-!
Shallow embedding of the redshow GPU-trace redundancy analyzer
(src/redshow.cpp, instruction.h, common_lib.h, operation/memcpy.cpp)
together with proofs settling the specification claims about it.

Machine integers (uint32_t, uint64_t) are modelled as Nat; the one
arithmetic site where a uint64_t overflow is possible in the embedded
code (cubin_offset computation in transform_pc) carries an explicit
mod 2^64.  std::map is modelled as an association list, kept sorted by
key exactly where the code relies on order (upper_bound searches).
-/

namespace Redshow

/-- Result codes of the library API (REDSHOW_* in redshow.h, as used by
redshow.cpp). -/
inductive RedshowResult where
  | SUCCESS
  | NO_SUCH_FILE
  | FAILED_ANALYZE_CUBIN
  | NOT_EXIST_ENTRY
  | DUPLICATE_ENTRY
  | NO_SUCH_APPROX
  | NOT_REGISTER_CALLBACK
  deriving DecidableEq

/-- Analysis kinds (redshow_analysis_type_t). -/
inductive RedshowAnalysisType where
  | SPATIAL_REDUNDANCY
  | TEMPORAL_REDUNDANCY
  deriving DecidableEq

/-- AccessType::DataType (the enum nested in the access-kind struct of
instruction.h: UNKNOWN, INTEGER, FLOAT). -/
inductive DataType where
  | UNKNOWN
  | INTEGER
  | FLOAT
  deriving DecidableEq

/-- The access-kind struct used by redshow.cpp under the name AccessType
(field layout mirrors the AccessKind struct of instruction.h: vec_size,
unit_size, type; default constructor gives (0, 0, UNKNOWN)). -/
structure AccessType where
  vec_size : Nat
  unit_size : Nat
  type : DataType
  deriving DecidableEq

/-- AccessType() default constructor: (0, 0, UNKNOWN). -/
def AccessType.init : AccessType := ⟨0, 0, DataType.UNKNOWN⟩

/-- Symbol from instruction.h: (index, cubin_offset, pc), ordered by pc. -/
structure Symbol where
  index : Nat
  cubin_offset : Nat
  pc : Nat
  deriving DecidableEq

/-- Symbol() default constructor: (0, 0, 0). -/
def Symbol.init : Symbol := ⟨0, 0, 0⟩

/-- ThreadId from common_lib.h: (flat_block_id, flat_thread_id). -/
structure ThreadId where
  flat_block_id : Nat
  flat_thread_id : Nat
  deriving DecidableEq

/-- Association-list lookup, the model of std::map::find for maps whose
iteration order the embedded code does not rely on. -/
def lookupBy [BEq κ] (m : List (κ × α)) (k : κ) : Option α :=
  (m.find? (fun p => p.1 == k)).map (fun p => p.2)

/-- Association-list insert-or-replace (std::map operator[] followed by
assignment) for maps whose iteration order the code does not rely on. -/
def setBy [BEq κ] : List (κ × α) → κ → α → List (κ × α)
  | [], k, v => [(k, v)]
  | (q, w) :: rest, k, v =>
    if k == q then (k, v) :: rest else (q, w) :: setBy rest k v

/-- Increment the counter stored under a key, starting it at 1 when the
key is absent (the `map[key]++` idiom of the trace accumulators). -/
def bump [BEq κ] : List (κ × Nat) → κ → List (κ × Nat)
  | [], k => [(k, 1)]
  | (q, n) :: rest, k =>
    if k == q then (q, n + 1) :: rest else (q, n) :: bump rest k

/-- Order-preserving insert for a Nat-keyed std::map whose ordering the
code exploits through upper_bound (memory_snapshot). -/
def alInsert : List (Nat × α) → Nat → α → List (Nat × α)
  | [], k, v => [(k, v)]
  | (q, w) :: rest, k, v =>
    if k < q then (k, v) :: (q, w) :: rest
    else if k == q then (k, v) :: rest
    else (q, w) :: alInsert rest k v

/-- Model of `iter = map.upper_bound(k); if (iter != map.begin()) --iter;`
on a Nat-keyed std::map: the last entry whose key is ≤ k (none when the
map is empty or every key exceeds k). -/
def alLastLe (m : List (Nat × α)) (k : Nat) : Option (Nat × α) :=
  (m.takeWhile (fun p => p.1 ≤ k)).getLast?

/-- MemoryRange from redshow.cpp: [start, end), compared by start only
(operator< is `start < other.start`). -/
structure MemoryRange where
  start : Nat
  end_ : Nat
  deriving DecidableEq

/-- Memory from redshow.cpp: (memory_range, memory_op_id, memory_id). -/
structure Memory where
  memory_range : MemoryRange
  memory_op_id : Nat
  memory_id : Nat
  deriving DecidableEq

/-- MemoryMap = std::map<MemoryRange, Memory>; since MemoryRange's
operator< compares start only, the effective key is the start address.
Kept sorted by start. -/
abbrev MemoryMap := List (MemoryRange × Memory)

/-- std::map::find on a MemoryMap: an entry is equivalent to the probe
exactly when the starts are equal (comparator uses start only). -/
def mmFind (m : MemoryMap) (r : MemoryRange) : Option Memory :=
  (m.find? (fun p => p.1.start == r.start)).map (fun p => p.2)

/-- operator[]-style insert for a MemoryMap, keeping starts sorted. -/
def mmInsert : MemoryMap → MemoryRange → Memory → MemoryMap
  | [], r, v => [(r, v)]
  | (q, w) :: rest, r, v =>
    if r.start < q.start then (r, v) :: (q, w) :: rest
    else if r.start == q.start then (r, v) :: rest
    else (q, w) :: mmInsert rest r v

/-- Model of the analyzer's range probe (redshow.cpp lines 343-349):
upper_bound(MemoryRange(addr, addr)) then step back — the last entry
whose start is ≤ addr. -/
def mmLastLe (m : MemoryMap) (addr : Nat) : Option (MemoryRange × Memory) :=
  (m.takeWhile (fun p => p.1.start ≤ addr)).getLast?

/-- SpatialTrace from common_lib.h, with the nested maps
{(memory_op_id, DataType) : {pc : {value : count}}} flattened into one
counter per (memory_op_id, type, pc, value) key. -/
abbrev SpatialTrace := List ((Nat × DataType × Nat × Nat) × Nat)

/-- TemporalTrace from common_lib.h: {ThreadId : {address : (pc, value)}}. -/
abbrev TemporalTrace := List (ThreadId × List (Nat × (Nat × Nat)))

/-- PCPairs from common_lib.h, with the nested maps
{pc1 : {pc2 : {(value, type) : count}}} flattened into one counter per
(pc1, pc2, value, type) key. -/
abbrev PCPairs := List ((Nat × Nat × Nat × DataType) × Nat)

/-- std::map::erase of a ThreadId key from a temporal trace. -/
def ttErase (t : TemporalTrace) (tid : ThreadId) : TemporalTrace :=
  t.filter (fun p => p.1 != tid)

/-- Whether a temporal trace holds an entry for a ThreadId. -/
def ttHas (t : TemporalTrace) (tid : ThreadId) : Bool :=
  t.any (fun p => p.1 == tid)

/-- Modelled from the spec: the body of get_spatial_trace is not under
src/ (only its declaration in common_lib.h is); per spec section 4.G it
increments spatial[(memory_op_id, kind)][pc][value]. -/
def get_spatial_trace (pc value memory_op_id : Nat) (a : AccessType)
    (t : SpatialTrace) : SpatialTrace :=
  bump t (memory_op_id, a.type, pc, value)

/-- Modelled from the spec: the body of get_temporal_trace is not under
src/ (only its declaration in common_lib.h is); per spec section 4.G it
reads the previous (pc, value) held for (tid, addr), stores the current
one, and when a previous pair existed increments
pc_pairs[prev.pc][pc][(value, kind)]. -/
def get_temporal_trace (pc : Nat) (tid : ThreadId) (addr value : Nat)
    (a : AccessType) (tt : TemporalTrace) (pp : PCPairs) :
    TemporalTrace × PCPairs :=
  let amap := (lookupBy tt tid).getD []
  let pp2 := match lookupBy amap addr with
    | some prev => bump pp (prev.1, pc, value, a.type)
    | none => pp
  (setBy tt tid (setBy amap addr (pc, value)), pp2)

/-- Instruction from instruction.h (assign_pcs as an association list,
access_kind's null shared_ptr as none). -/
structure Instruction where
  op : List Char
  pc : Nat
  predicate : Int
  dsts : List Int
  srcs : List Int
  assign_pcs : List (Int × List Int)
  access_kind : Option AccessType
  deriving DecidableEq

/-- InstructionGraph from instruction.h: def-use adjacency plus the
pc-keyed node map (only _nodes is read by redshow.cpp). -/
structure InstructionGraph where
  incoming_nodes : List (Nat × List Nat)
  outgoing_nodes : List (Nat × List Nat)
  nodes : List (Nat × Instruction)
  deriving DecidableEq

/-- InstructionGraph() default constructor: all maps empty. -/
def InstructionGraph.init : InstructionGraph := ⟨[], [], []⟩

/-- InstructionGraph::node is `_nodes.at(pc)`; none models the
std::out_of_range exception thrown when pc is absent. -/
def InstructionGraph.node (g : InstructionGraph) (pc : Nat) : Option Instruction :=
  lookupBy g.nodes pc

/-- InstructionGraph::size = number of nodes. -/
def InstructionGraph.size (g : InstructionGraph) : Nat :=
  g.nodes.length

/-- Cubin from redshow.cpp: (cubin_id, path, symbols, inst_graph). -/
structure Cubin where
  cubin_id : Nat
  path : List Char
  symbols : List Symbol
  inst_graph : InstructionGraph
  deriving DecidableEq

/-- CubinCache from redshow.cpp: (cubin_id, nsymbols, symbol_pcs, path);
symbol_pcs models the owned uint64_t array. -/
structure CubinCache where
  cubin_id : Nat
  nsymbols : Nat
  symbol_pcs : Nat → Nat
  path : List Char

/-- Kernel from redshow.cpp: ids plus the six per-kernel accumulators. -/
structure Kernel where
  kernel_id : Nat
  cubin_id : Nat
  func_index : Nat
  func_addr : Nat
  read_spatial_trace : SpatialTrace
  write_spatial_trace : SpatialTrace
  read_temporal_trace : TemporalTrace
  read_pc_pairs : PCPairs
  write_temporal_trace : TemporalTrace
  write_pc_pairs : PCPairs
  deriving DecidableEq

/-- The Kernel produced by std::map operator[] value-initialization:
zeroed ids and empty accumulators. -/
def Kernel.init : Kernel := ⟨0, 0, 0, 0, [], [], [], [], [], []⟩

/-- Modelled from the spec: gpu_patch.h is an external header (only its
contract appears in spec section 6); WARP_SIZE is its compile-time
constant, 32 lanes per warp. -/
def GPU_PATCH_WARP_SIZE : Nat := 32

/-- Modelled from the spec: the flag bits of a gpu_patch record
(BLOCK_ENTER, BLOCK_EXIT, READ, WRITE, LOCAL, SHARED), represented as
independent booleans rather than a packed word. -/
structure GpuPatchFlags where
  block_enter : Bool
  block_exit : Bool
  read : Bool
  write : Bool
  local_flag : Bool
  shared_flag : Bool

/-- Modelled from the spec: one gpu_patch_record_t of the instrumentation
buffer contract: (pc, flat thread/block ids, active mask, size, flags,
per-lane addresses, per-lane value bytes). -/
structure GpuPatchRecord where
  pc : Nat
  flat_thread_id : Nat
  flat_block_id : Nat
  active : Nat
  size : Nat
  flags : GpuPatchFlags
  address : Nat → Nat
  value : Nat → Nat → Nat

/-- Modelled from the spec: gpu_patch_buffer_t — head_index records. -/
structure TraceData where
  head_index : Nat
  records : Nat → GpuPatchRecord

/-- Modelled from the spec: the external code this library calls whose
bodies are not under src/ — the filesystem probe for the .inst file,
parse_instructions (symbols and instruction graph it would produce),
load_data_type / store_data_type (spec section 4.B type inference), and
store2basictype (spec section 4.A value canonicalizer). -/
structure Env where
  inst_file_exists : List Char → Bool
  parse_ok : List Char → Bool
  parsed_symbols : List Char → List Symbol
  parsed_graph : List Char → InstructionGraph
  load_data_type : Nat → InstructionGraph → AccessType
  store_data_type : Nat → InstructionGraph → AccessType
  store2basictype : Nat → AccessType → Nat → Nat → Nat

/-- An environment whose external functions return trivial values and
whose canonicalizer is the identity; used to instantiate theorems at
concrete inputs. -/
def envId : Env where
  inst_file_exists := fun _ => false
  parse_ok := fun _ => false
  parsed_symbols := fun _ => []
  parsed_graph := fun _ => InstructionGraph.init
  load_data_type := fun _ _ => AccessType.init
  store_data_type := fun _ _ => AccessType.init
  store2basictype := fun v _ _ _ => v

/-- std::string::rfind('/', pos): the largest index ≤ pos holding '/'. -/
def rfindSlashLe (s : List Char) (pos : Nat) : Option Nat :=
  ((List.range s.length).filter
    (fun i => decide (i ≤ pos) && (s.getD i ' ' == '/'))).getLast?

/-- The .inst path derivation of cubin_analyze (redshow.cpp lines
144-155): none when the path holds no '/'; otherwise
dir_name ++ "/structs/nvidia/" ++ cubin_name ++ ".inst", where dir_name
is everything before the second-to-last '/' (the whole path when the
backwards search finds no further '/', matching substr(0, npos)). -/
def derive_inst_path (path : List Char) : Option (List Char) :=
  match rfindSlashLe path path.length with
  | none => none
  | some iter =>
    let cubin_name := path.drop (iter + 1)
    let dir_name :=
      match rfindSlashLe path (iter - 1) with
      | none => path
      | some i2 => path.take i2
    some (dir_name ++ "/structs/nvidia/".toList ++ cubin_name ++ ".inst".toList)

/-- cubin_analyze (redshow.cpp lines 141-172): derive the .inst path
(NO_SUCH_FILE when the path has no '/'), probe the filesystem
(NO_SUCH_FILE when absent), then parse (FAILED_ANALYZE_CUBIN on parse
failure); symbols and graph are replaced only on successful parse. -/
def cubin_analyze (env : Env) (path : List Char) (symbols : List Symbol)
    (inst_graph : InstructionGraph) :
    RedshowResult × List Symbol × InstructionGraph :=
  match derive_inst_path path with
  | none => (RedshowResult.NO_SUCH_FILE, symbols, inst_graph)
  | some inst_path =>
    if env.inst_file_exists inst_path then
      if env.parse_ok inst_path then
        (RedshowResult.SUCCESS, env.parsed_symbols inst_path, env.parsed_graph inst_path)
      else (RedshowResult.FAILED_ANALYZE_CUBIN, symbols, inst_graph)
    else (RedshowResult.NO_SUCH_FILE, symbols, inst_graph)

/-- One step of sorting symbols by pc (std::sort with Symbol::operator<). -/
def insertSymbolByPc (s : Symbol) : List Symbol → List Symbol
  | [] => [s]
  | x :: xs => if s.pc < x.pc then s :: x :: xs else x :: insertSymbolByPc s xs

/-- std::sort(symbols.begin(), symbols.end()) under Symbol::operator<. -/
def sortSymbols (l : List Symbol) : List Symbol :=
  l.foldr insertSymbolByPc []

/-- The symbol-pc assignment loop of redshow_cubin_register (lines
483-485): symbols[i].pc = symbol_pcs[i] for i < nsymbols. -/
def assign_symbol_pcs (symbols : List Symbol) (symbol_pcs : Nat → Nat)
    (nsymbols : Nat) : List Symbol :=
  symbols.mapIdx (fun i s => if i < nsymbols then { s with pc := symbol_pcs i } else s)

/-- The process-wide mutable state of redshow.cpp (the lock-guarded
global maps, callback registrations and configuration). -/
structure GlobalState where
  cubin_map : List (Nat × Cubin) := []
  cubin_cache_map : List (Nat × CubinCache) := []
  memory_snapshot : List (Nat × MemoryMap) := []
  kernel_map : List (Nat × List (Nat × Kernel)) := []
  analysis_enabled : List RedshowAnalysisType := []
  log_data_callback : Bool := false
  record_data_callback : Bool := false
  mini_host_op_id : Nat := 0
  decimal_degree_f32 : Nat := 23
  decimal_degree_f64 : Nat := 52

/-- redshow_cubin_register (redshow.cpp lines 471-503): run
cubin_analyze on nsymbols default-constructed symbols; on SUCCESS or
NO_SUCH_FILE assign the cached pcs, sort by pc and insert into
cubin_map unless the id is already active (DUPLICATE_ENTRY). -/
def redshow_cubin_register (env : Env) (st : GlobalState) (cubin_id nsymbols : Nat)
    (symbol_pcs : Nat → Nat) (path : List Char) : GlobalState × RedshowResult :=
  let symbols0 := List.replicate nsymbols Symbol.init
  let r0 := cubin_analyze env path symbols0 InstructionGraph.init
  match r0 with
  | (result, symbols1, inst_graph) =>
    if result = RedshowResult.SUCCESS ∨ result = RedshowResult.NO_SUCH_FILE then
      let symbols2 := sortSymbols (assign_symbol_pcs symbols1 symbol_pcs nsymbols)
      match lookupBy st.cubin_map cubin_id with
      | some _ => (st, RedshowResult.DUPLICATE_ENTRY)
      | none =>
        let cm := setBy st.cubin_map cubin_id ⟨cubin_id, path, symbols2, inst_graph⟩
        ({ st with cubin_map := cm }, result)
    else (st, result)

/-- redshow_memory_register (redshow.cpp lines 549-588): first snapshot
inserted unconditionally; otherwise copy the last snapshot keyed ≤
host_op_id (NOT_EXIST_ENTRY when none), fail DUPLICATE_ENTRY when find
locates an equivalent range (same start), else add the range and publish
the copy under host_op_id. -/
def redshow_memory_register (st : GlobalState) (start end_ host_op_id memory_id : Nat) :
    GlobalState × RedshowResult :=
  let memory_range : MemoryRange := ⟨start, end_⟩
  if st.memory_snapshot.length = 0 then
    let memory_map := mmInsert [] memory_range ⟨memory_range, host_op_id, memory_id⟩
    ({ st with memory_snapshot := alInsert st.memory_snapshot host_op_id memory_map },
     RedshowResult.SUCCESS)
  else
    match alLastLe st.memory_snapshot host_op_id with
    | none => (st, RedshowResult.NOT_EXIST_ENTRY)
    | some base =>
      match mmFind base.2 memory_range with
      | some _ => (st, RedshowResult.DUPLICATE_ENTRY)
      | none =>
        let memory_map := mmInsert base.2 memory_range ⟨memory_range, host_op_id, memory_id⟩
        ({ st with memory_snapshot := alInsert st.memory_snapshot host_op_id memory_map },
         RedshowResult.SUCCESS)

/-- transform_pc (redshow.cpp lines 175-193): upper_bound on the
pc-sorted symbol vector, step back to the last symbol with pc ≤ the
probe, and return (index, cubin_offset, pc_offset); none models the
NOT_EXIST_ENTRY return that leaves the out-parameters unwritten.  The
cubin_offset addition is uint64_t arithmetic, hence the mod 2^64. -/
def transform_pc (symbols : List Symbol) (pc : Nat) : Option (Nat × Nat × Nat) :=
  match (symbols.takeWhile (fun s => s.pc ≤ pc)).getLast? with
  | none => none
  | some s =>
    let pc_offset := pc - s.pc
    some (s.index, (pc_offset + s.cubin_offset) % 2 ^ 64, pc_offset)

/-- The access-kind computation of trace_analyze (redshow.cpp lines
313-332): with a non-empty instruction graph, fetch the node at
cubin_offset (`.at` — the error value models the std::out_of_range it
throws when absent) and derive the kind from load_data_type /
store_data_type according to the READ/WRITE flag (a record with neither
flag leaves the default-constructed UNKNOWN kind); then, whenever the
kind is still UNKNOWN (also when the graph is empty), fall back to
type FLOAT, vec_size = size * 8, unit_size = MIN2(WARP_SIZE, vec_size * 8). -/
def computeAccessType (env : Env) (g : InstructionGraph) (cubin_offset : Nat)
    (flags : GpuPatchFlags) (size : Nat) : Except Unit AccessType :=
  let finish : AccessType → AccessType := fun a =>
    if a.type = DataType.UNKNOWN then
      ⟨size * 8, min GPU_PATCH_WARP_SIZE ((size * 8) * 8), DataType.FLOAT⟩
    else a
  if g.size ≠ 0 then
    match g.node cubin_offset with
    | none => Except.error ()
    | some inst =>
      let a :=
        if flags.read then env.load_data_type inst.pc g
        else if flags.write then env.store_data_type inst.pc g
        else AccessType.init
      Except.ok (finish a)
  else Except.ok (finish AccessType.init)

/-- The memory_op_id resolution of trace_analyze (lines 343-360): take
the memory_op_id of the last range whose start is ≤ addr (0 when the
probe finds nothing), then substitute the LOCAL (2) or SHARED (1)
sentinel when it is 0 and the record carries the matching flag. -/
def resolveMemoryOpId (mm : MemoryMap) (flags : GpuPatchFlags) (addr : Nat) : Nat :=
  let memory_op_id :=
    match mmLastLe mm addr with
    | some p => p.2.memory_op_id
    | none => 0
  if memory_op_id = 0 then
    if flags.local_flag then 2
    else if flags.shared_flag then 1
    else 0
  else memory_op_id

/-- The little-endian byte extraction of lines 371-373: memcpy of
byte_size bytes starting at offset off into a uint64_t value. -/
def readLE (bytes : Nat → Nat) (off len : Nat) : Nat :=
  (List.range len).foldr (fun b acc => acc * 256 + bytes (off + b)) 0

/-- The inner analysis dispatch of lines 376-396: fold the enabled
analyses over one canonicalized unit value. -/
def applyAnalyses (ae : List RedshowAnalysisType) (flags : GpuPatchFlags)
    (pc : Nat) (tid : ThreadId) (addr value : Nat) (unit_access_type : AccessType)
    (memory_op_id : Nat) (k : Kernel) : Kernel :=
  ae.foldl (fun k analysis =>
    match analysis with
    | RedshowAnalysisType.SPATIAL_REDUNDANCY =>
      if flags.read then
        { k with read_spatial_trace :=
            get_spatial_trace pc value memory_op_id unit_access_type k.read_spatial_trace }
      else
        { k with write_spatial_trace :=
            get_spatial_trace pc value memory_op_id unit_access_type k.write_spatial_trace }
    | RedshowAnalysisType.TEMPORAL_REDUNDANCY =>
      if flags.read then
        let tp := get_temporal_trace pc tid addr value unit_access_type
          k.read_temporal_trace k.read_pc_pairs
        { k with read_temporal_trace := tp.1, read_pc_pairs := tp.2 }
      else
        let tp := get_temporal_trace pc tid addr value unit_access_type
          k.write_temporal_trace k.write_pc_pairs
        { k with write_temporal_trace := tp.1, write_pc_pairs := tp.2 }) k

/-- The unit loop of lines 366-397: split the access into
vec_size / unit_size units, extract and canonicalize each unit's value
and feed it to every enabled analysis. -/
def processUnits (env : Env) (ae : List RedshowAnalysisType) (d32 d64 : Nat)
    (record : GpuPatchRecord) (access_type : AccessType) (tid : ThreadId)
    (memory_op_id : Nat) (j : Nat) (k : Kernel) : Kernel :=
  let num_units := access_type.vec_size / access_type.unit_size
  let unit_access_type : AccessType := { access_type with vec_size := access_type.unit_size }
  (List.range num_units).foldl (fun k m =>
    let byte_size := unit_access_type.unit_size >>> 3
    let raw := readLE (record.value j) (m * byte_size) byte_size
    let value := env.store2basictype raw unit_access_type d32 d64
    applyAnalyses ae record.flags record.pc tid (record.address j) value
      unit_access_type memory_op_id k) k

/-- The lane loop of lines 335-398: for each active lane, compute the
warp-aligned ThreadId, resolve memory_op_id (skipping the lane when it
stays 0) and process the units. -/
def processLanes (env : Env) (mm : MemoryMap) (ae : List RedshowAnalysisType)
    (d32 d64 : Nat) (record : GpuPatchRecord) (access_type : AccessType)
    (k : Kernel) : Kernel :=
  (List.range GPU_PATCH_WARP_SIZE).foldl (fun k j =>
    if record.active.testBit j then
      let flat_thread_id :=
        record.flat_thread_id / GPU_PATCH_WARP_SIZE * GPU_PATCH_WARP_SIZE + j
      let tid : ThreadId := ⟨record.flat_block_id, flat_thread_id⟩
      let memory_op_id := resolveMemoryOpId mm record.flags (record.address j)
      if memory_op_id = 0 then k
      else processUnits env ae d32 d64 record access_type tid memory_op_id j k
    else k) k

/-- One lane of the BLOCK_EXIT loop (lines 298-305): erase the
warp-aligned ThreadId of an active lane from both temporal traces. -/
def exitEraseStep (record : GpuPatchRecord) (k : Kernel) (j : Nat) : Kernel :=
  if record.active.testBit j then
    let flat_thread_id :=
      record.flat_thread_id / GPU_PATCH_WARP_SIZE * GPU_PATCH_WARP_SIZE + j
    let thread_id : ThreadId := ⟨record.flat_block_id, flat_thread_id⟩
    { k with read_temporal_trace := ttErase k.read_temporal_trace thread_id,
             write_temporal_trace := ttErase k.write_temporal_trace thread_id }
  else k

/-- The BLOCK_EXIT loop folded over a list of lane indices. -/
def exitEraseList (record : GpuPatchRecord) (js : List Nat) (k : Kernel) : Kernel :=
  js.foldl (exitEraseStep record) k

/-- Outcome of processing one record: ok, or an escaped C++ exception
(std::out_of_range from InstructionGraph::node), carrying the kernel
state at that point. -/
inductive StepResult where
  | ok (k : Kernel)
  | thrown (k : Kernel)
  deriving DecidableEq

/-- The cubin_offset the analyzer hands to the instruction graph: the
out-parameters are zero-initialized and the transform_pc result code is
ignored (line 310), so a failed translation leaves cubin_offset 0. -/
def recordCubinOffset (symbols : List Symbol) (pc : Nat) : Nat :=
  match transform_pc symbols pc with
  | some t => t.2.1
  | none => 0

/-- The body of the per-record loop of trace_analyze (lines 285-399):
skip empty records, skip BLOCK_ENTER, erase temporal entries on
BLOCK_EXIT, otherwise translate the pc (failure leaves the zero
initialized outputs), compute the access kind (possibly throwing) and
process the lanes. -/
def processRecord (env : Env) (symbols : List Symbol) (g : InstructionGraph)
    (mm : MemoryMap) (ae : List RedshowAnalysisType) (d32 d64 : Nat)
    (k : Kernel) (record : GpuPatchRecord) : StepResult :=
  if record.size = 0 then StepResult.ok k
  else if record.flags.block_enter then StepResult.ok k
  else if record.flags.block_exit then
    StepResult.ok (exitEraseList record (List.range GPU_PATCH_WARP_SIZE) k)
  else
    match computeAccessType env g (recordCubinOffset symbols record.pc)
        record.flags record.size with
    | Except.error _ => StepResult.thrown k
    | Except.ok access_type =>
      StepResult.ok (processLanes env mm ae d32 d64 record access_type k)

/-- The cubin resolution of trace_analyze (lines 212-256): look in
cubin_map; on a miss consult cubin_cache_map and promote it through
redshow_cubin_register, then retry once; failures surface as the error
code the code would return (NOT_EXIST_ENTRY on a plain miss, the
register result when promotion fails). -/
def resolveCubin (env : Env) (st : GlobalState) (cubin_id : Nat) :
    GlobalState × Except RedshowResult Cubin :=
  match lookupBy st.cubin_map cubin_id with
  | some c => (st, Except.ok c)
  | none =>
    match lookupBy st.cubin_cache_map cubin_id with
    | none => (st, Except.error RedshowResult.NOT_EXIST_ENTRY)
    | some cc =>
      let pr := redshow_cubin_register env st cubin_id cc.nsymbols cc.symbol_pcs cc.path
      if pr.2 = RedshowResult.SUCCESS then
        match lookupBy pr.1.cubin_map cubin_id with
        | some c => (pr.1, Except.ok c)
        | none => (pr.1, Except.error RedshowResult.NOT_EXIST_ENTRY)
      else (pr.1, Except.error pr.2)

/-- The record loop of trace_analyze folded over the head_index records. -/
def runRecords (env : Env) (symbols : List Symbol) (g : InstructionGraph)
    (mm : MemoryMap) (ae : List RedshowAnalysisType) (d32 d64 : Nat)
    (k : Kernel) (trace_data : TraceData) : StepResult :=
  (List.range trace_data.head_index).foldl (fun s i =>
    match s with
    | StepResult.thrown k => StepResult.thrown k
    | StepResult.ok k =>
      processRecord env symbols g mm ae d32 d64 k (trace_data.records i)) (StepResult.ok k)

/-- Outcome of trace_analyze: a result code, or an escaped exception;
both carry the kernel state (mutated in place through the reference in
the C++ code). -/
inductive TAOutcome where
  | ret (result : RedshowResult) (k : Kernel)
  | thrown (k : Kernel)
  deriving DecidableEq

/-- trace_analyze (redshow.cpp lines 196-403): resolve the cubin (with
lazy promotion), select the last memory snapshot keyed ≤ host_op_id
(NOT_EXIST_ENTRY when none), then run the per-record loop. -/
def trace_analyze (env : Env) (st : GlobalState) (kernel : Kernel)
    (host_op_id : Nat) (trace_data : TraceData) : GlobalState × TAOutcome :=
  match resolveCubin env st kernel.cubin_id with
  | (st1, Except.error r) => (st1, TAOutcome.ret r kernel)
  | (st1, Except.ok c) =>
    match alLastLe st1.memory_snapshot host_op_id with
    | none => (st1, TAOutcome.ret RedshowResult.NOT_EXIST_ENTRY kernel)
    | some snap =>
      match runRecords env c.symbols c.inst_graph snap.2 st1.analysis_enabled
          st1.decimal_degree_f32 st1.decimal_degree_f64 kernel trace_data with
      | StepResult.ok k => (st1, TAOutcome.ret RedshowResult.SUCCESS k)
      | StepResult.thrown k => (st1, TAOutcome.thrown k)

/-- Lookup of kernel_map[thread_id][kernel_id]. -/
def kernelLookup (km : List (Nat × List (Nat × Kernel))) (thread_id kernel_id : Nat) :
    Option Kernel :=
  lookupBy ((lookupBy km thread_id).getD []) kernel_id

/-- Store kernel_map[thread_id][kernel_id] = k. -/
def setKernel (km : List (Nat × List (Nat × Kernel))) (thread_id kernel_id : Nat)
    (k : Kernel) : List (Nat × List (Nat × Kernel)) :=
  setBy km thread_id (setBy ((lookupBy km thread_id).getD []) kernel_id k)

/-- Outcome of a library API call: a result code, or an escaped C++
exception. -/
inductive APIOutcome where
  | ret (result : RedshowResult)
  | thrown
  deriving DecidableEq

/-- redshow_analyze (redshow.cpp lines 633-668): operator[] creates the
per-thread sub-map and the Kernel entry, its kernel_id and cubin_id are
assigned, trace_analyze runs on it (the entry retains the mutated kernel
even when an exception escapes), and on SUCCESS the log callback gates
the final result (NOT_REGISTER_CALLBACK when absent) and
mini_host_op_id is folded with MIN2. -/
def redshow_analyze (env : Env) (st : GlobalState)
    (thread_id cubin_id kernel_id host_op_id : Nat) (trace_data : TraceData) :
    GlobalState × APIOutcome :=
  let tkm := (lookupBy st.kernel_map thread_id).getD []
  let k0 := (lookupBy tkm kernel_id).getD Kernel.init
  let k1 := { k0 with kernel_id := kernel_id, cubin_id := cubin_id }
  let st1 := { st with kernel_map := setBy st.kernel_map thread_id (setBy tkm kernel_id k1) }
  match trace_analyze env st1 k1 host_op_id trace_data with
  | (st2, TAOutcome.thrown k) =>
    ({ st2 with kernel_map := setKernel st2.kernel_map thread_id kernel_id k },
     APIOutcome.thrown)
  | (st2, TAOutcome.ret r k) =>
    let st3 := { st2 with kernel_map := setKernel st2.kernel_map thread_id kernel_id k }
    if r = RedshowResult.SUCCESS then
      if st3.log_data_callback then
        let mini := if st3.mini_host_op_id = 0 then host_op_id
                    else min st3.mini_host_op_id host_op_id
        ({ st3 with mini_host_op_id := mini }, APIOutcome.ret RedshowResult.SUCCESS)
      else (st3, APIOutcome.ret RedshowResult.NOT_REGISTER_CALLBACK)
    else (st3, APIOutcome.ret r)

/-- compute_memcpy_redundancy<true> (operation/memcpy.cpp lines 32-53)
over a byte memory mem: for i ascending below len, count when
mem[dst+i] == mem[src+i] and overwrite mem[dst+i] with mem[src+i]
otherwise; returns (count, final memory).  The double accumulator of the
source increments by exactly 1 per equal byte and is modelled as a Nat. -/
def compute_memcpy_redundancy_true (mem : Nat → Nat) (dst_start src_start : Nat) :
    Nat → Nat × (Nat → Nat)
  | 0 => (0, mem)
  | n + 1 =>
    let p := compute_memcpy_redundancy_true mem dst_start src_start n
    if p.2 (dst_start + n) = p.2 (src_start + n) then (p.1 + 1, p.2)
    else (p.1, fun a => if a = dst_start + n then p.2 (src_start + n) else p.2 a)

/-! Generic lemmas about the association-list models. -/

theorem lookupBy_setBy_self [BEq κ] [LawfulBEq κ] (m : List (κ × α)) (k : κ) (v : α) :
    lookupBy (setBy m k v) k = some v := by
  induction m with
  | nil => simp [setBy, lookupBy, List.find?]
  | cons p rest ih =>
    obtain ⟨q, w⟩ := p
    by_cases h : k = q
    · subst h
      simp [setBy, lookupBy, List.find?]
    · have hb : (k == q) = false := beq_eq_false_iff_ne.mpr h
      have hb2 : (q == k) = false := beq_eq_false_iff_ne.mpr (Ne.symm h)
      simp only [setBy, hb, if_false, lookupBy, List.find?, hb2]
      exact ih

theorem getLast_mem {α : Type} : ∀ (l : List α) (a : α), l.getLast? = some a → a ∈ l := by
  intro l
  induction l with
  | nil => intro a h; simp [List.getLast?] at h
  | cons x xs ih =>
    intro a h
    cases xs with
    | nil =>
      simp [List.getLast?] at h
      simp [h]
    | cons y ys =>
      rw [List.getLast?_cons_cons] at h
      exact List.mem_cons_of_mem x (ih a h)

theorem takeWhile_mem_of_getLast {α : Type} (p : α → Bool) :
    ∀ (l : List α) (a : α), (l.takeWhile p).getLast? = some a → a ∈ l ∧ p a = true := by
  intro l a h
  have hmem : a ∈ l.takeWhile p := getLast_mem _ a h
  exact ⟨(List.takeWhile_sublist p).mem hmem, List.mem_takeWhile_imp hmem⟩

theorem foldl_preserves {α β : Type} {P : β → Prop} (f : β → α → β)
    (h : ∀ b a, P b → P (f b a)) : ∀ (l : List α) (b : β), P b → P (l.foldl f b) := by
  intro l
  induction l with
  | nil => intro b hb; exact hb
  | cons x xs ih => intro b hb; exact ih (f b x) (h b x hb)

/-! Claim C9: compute_memcpy_redundancy over non-overlapping buffers. -/

theorem memcpy_loop_spec (mem : Nat → Nat) (dst src : Nat) :
    ∀ (len : Nat), (∀ i j, i < len → j < len → dst + i ≠ src + j) →
      (compute_memcpy_redundancy_true mem dst src len).1 =
        ((List.range len).filter (fun i => mem (dst + i) == mem (src + i))).length
      ∧ (∀ i, i < len →
          (compute_memcpy_redundancy_true mem dst src len).2 (dst + i) = mem (src + i))
      ∧ (∀ a, (∀ i, i < len → a ≠ dst + i) →
          (compute_memcpy_redundancy_true mem dst src len).2 a = mem a) := by
  intro len
  induction len with
  | zero =>
    intro _
    refine ⟨rfl, ?_, ?_⟩
    · intro i hi; omega
    · intro a _; rfl
  | succ n ih =>
    intro hdisj
    obtain ⟨ih1, ih2, ih3⟩ :=
      ih (fun i j hi hj => hdisj i j (Nat.lt_succ_of_lt hi) (Nat.lt_succ_of_lt hj))
    have hdstn : (compute_memcpy_redundancy_true mem dst src n).2 (dst + n) = mem (dst + n) := by
      apply ih3
      intro i hi hcontra
      have := Nat.add_left_cancel hcontra
      omega
    have hsrcn : (compute_memcpy_redundancy_true mem dst src n).2 (src + n) = mem (src + n) := by
      apply ih3
      intro i hi hcontra
      exact hdisj i n (Nat.lt_succ_of_lt hi) (Nat.lt_succ_self n) hcontra.symm
    by_cases hcase : mem (dst + n) = mem (src + n)
    · have hcond : (compute_memcpy_redundancy_true mem dst src n).2 (dst + n) =
          (compute_memcpy_redundancy_true mem dst src n).2 (src + n) := by
        rw [hdstn, hsrcn]; exact hcase
      refine ⟨?_, ?_, ?_⟩
      · simp only [compute_memcpy_redundancy_true, hcond, if_true]
        rw [List.range_succ, List.filter_append, List.length_append, ih1]
        simp [hcase]
      · intro i hi
        simp only [compute_memcpy_redundancy_true, hcond, if_true]
        rcases Nat.lt_succ_iff_lt_or_eq.mp hi with h | h
        · exact ih2 i h
        · subst h; rw [hdstn]; exact hcase
      · intro a ha
        simp only [compute_memcpy_redundancy_true, hcond, if_true]
        exact ih3 a (fun i hi => ha i (Nat.lt_succ_of_lt hi))
    · have hcond : ¬ ((compute_memcpy_redundancy_true mem dst src n).2 (dst + n) =
          (compute_memcpy_redundancy_true mem dst src n).2 (src + n)) := by
        rw [hdstn, hsrcn]; exact hcase
      refine ⟨?_, ?_, ?_⟩
      · simp only [compute_memcpy_redundancy_true, hcond, if_false]
        rw [List.range_succ, List.filter_append, List.length_append, ih1]
        simp [hcase]
      · intro i hi
        simp only [compute_memcpy_redundancy_true, hcond, if_false]
        rcases Nat.lt_succ_iff_lt_or_eq.mp hi with h | h
        · have hne : dst + i ≠ dst + n := by omega
          simp only [hne, if_false]
          exact ih2 i h
        · subst h
          simp only [if_pos rfl]
          exact hsrcn
      · intro a ha
        simp only [compute_memcpy_redundancy_true, hcond, if_false]
        have hne : a ≠ dst + n := ha n (Nat.lt_succ_self n)
        simp only [hne, if_false]
        exact ih3 a (fun i hi => ha i (Nat.lt_succ_of_lt hi))

/-- C9: for non-overlapping byte buffers dst and src of length len,
compute_memcpy_redundancy<true> returns the number of indices i < len at
which dst[i] equalled src[i] before the call; afterwards
dst[i] = src[i] (the original src value) for every i < len, every
location outside the destination buffer — in particular all of src — is
unchanged, and dst[i] equals src[i] in the final memory. -/
theorem c9_memcpy_redundancy (mem : Nat → Nat) (dst_start src_start len : Nat)
    (hdisj : ∀ i j, i < len → j < len → dst_start + i ≠ src_start + j) :
    (compute_memcpy_redundancy_true mem dst_start src_start len).1 =
      ((List.range len).filter (fun i => mem (dst_start + i) == mem (src_start + i))).length
    ∧ (∀ i, i < len →
        (compute_memcpy_redundancy_true mem dst_start src_start len).2 (dst_start + i) =
          mem (src_start + i))
    ∧ (∀ a, (∀ i, i < len → a ≠ dst_start + i) →
        (compute_memcpy_redundancy_true mem dst_start src_start len).2 a = mem a)
    ∧ (∀ j, j < len →
        (compute_memcpy_redundancy_true mem dst_start src_start len).2 (src_start + j) =
          mem (src_start + j))
    ∧ (∀ i, i < len →
        (compute_memcpy_redundancy_true mem dst_start src_start len).2 (dst_start + i) =
          (compute_memcpy_redundancy_true mem dst_start src_start len).2 (src_start + i)) := by
  obtain ⟨h1, h2, h3⟩ := memcpy_loop_spec mem dst_start src_start len hdisj
  have hsrc : ∀ j, j < len →
      (compute_memcpy_redundancy_true mem dst_start src_start len).2 (src_start + j) =
        mem (src_start + j) := by
    intro j hj
    exact h3 _ (fun i hi hc => hdisj i j hi hj hc.symm)
  refine ⟨h1, h2, h3, hsrc, ?_⟩
  intro i hi
  rw [h2 i hi, hsrc i hi]

/-- Closed witness for c9_memcpy_redundancy at a concrete memory. -/
theorem c9_witness :
    (∀ i j : Nat, i < 2 → j < 2 → 0 + i ≠ 5 + j) ∧
    ((compute_memcpy_redundancy_true (fun a => a % 3) 0 5 2).1 =
      ((List.range 2).filter
        (fun i => (fun a => a % 3) (0 + i) == (fun a => a % 3) (5 + i))).length
    ∧ (∀ i, i < 2 →
        (compute_memcpy_redundancy_true (fun a => a % 3) 0 5 2).2 (0 + i) =
          (fun a => a % 3) (5 + i))
    ∧ (∀ a, (∀ i, i < 2 → a ≠ 0 + i) →
        (compute_memcpy_redundancy_true (fun a => a % 3) 0 5 2).2 a = (fun a => a % 3) a)
    ∧ (∀ j, j < 2 →
        (compute_memcpy_redundancy_true (fun a => a % 3) 0 5 2).2 (5 + j) =
          (fun a => a % 3) (5 + j))
    ∧ (∀ i, i < 2 →
        (compute_memcpy_redundancy_true (fun a => a % 3) 0 5 2).2 (0 + i) =
          (compute_memcpy_redundancy_true (fun a => a % 3) 0 5 2).2 (5 + i))) :=
  ⟨by intro i j hi hj; omega, c9_memcpy_redundancy (fun a => a % 3) 0 5 2 (by intro i j hi hj; omega)⟩

/-! Claim C5: the transform_pc round trip. -/

theorem takeWhile_getLast_at (pc : Nat) :
    ∀ (l : List Symbol) (i : Nat) (hi : i < l.length),
      List.Pairwise (fun a b => a.pc < b.pc) l →
      (l.get ⟨i, hi⟩).pc ≤ pc →
      (∀ (hn : i + 1 < l.length), pc < (l.get ⟨i + 1, hn⟩).pc) →
      (l.takeWhile (fun s => s.pc ≤ pc)).getLast? = some (l.get ⟨i, hi⟩) := by
  intro l
  induction l with
  | nil => intro i hi; simp at hi
  | cons x xs ih =>
    intro i hi hpair hlow hhigh
    obtain ⟨hx, hxs⟩ := List.pairwise_cons.mp hpair
    cases i with
    | zero =>
      have hpx : (decide (x.pc ≤ pc)) = true := decide_eq_true hlow
      cases xs with
      | nil => simp [List.takeWhile_cons, hpx]
      | cons y ys =>
        have h1 : pc < y.pc := hhigh (by simp)
        have hpy : (decide (y.pc ≤ pc)) = false := by
          simp [decide_eq_false_iff_not]
          omega
        simp [List.takeWhile_cons, hpx, hpy]
    | succ j =>
      have hj : j < xs.length := Nat.lt_of_succ_lt_succ hi
      have hget : (x :: xs).get ⟨j + 1, hi⟩ = xs.get ⟨j, hj⟩ := rfl
      rw [hget] at hlow ⊢
      have hxj : x.pc < (xs.get ⟨j, hj⟩).pc := hx _ (List.get_mem xs j hj)
      have hpx : (decide (x.pc ≤ pc)) = true := decide_eq_true (le_trans (le_of_lt hxj) hlow)
      have hhigh2 : ∀ (hn : j + 1 < xs.length), pc < (xs.get ⟨j + 1, hn⟩).pc := by
        intro hn
        exact hhigh (Nat.succ_lt_succ hn)
      have htail := ih j hj hxs hlow hhigh2
      rw [List.takeWhile_cons]
      simp only [hpx, if_true]
      cases hcase : xs.takeWhile (fun s => s.pc ≤ pc) with
      | nil => rw [hcase] at htail; simp [List.getLast?] at htail
      | cons z zs =>
        rw [hcase] at htail
        rw [List.getLast?_cons_cons]
        exact htail

/-- C5 (amended): for a strictly pc-sorted symbol vector,
transform_pc(symbols, symbol[i].pc + k) with k below the gap to the next
symbol (unbounded for the last) returns function_index = symbol[i].index
(the symbol's stored index field, not the vector position i),
cubin_offset = symbol[i].cubin_offset + k and pc_offset = k; and every
pc strictly below symbols[0].pc fails with NOT_EXIST_ENTRY (none, the
out-parameters left unwritten). -/
theorem c5_amended_transform_pc (symbols : List Symbol)
    (hsorted : List.Pairwise (fun a b => a.pc < b.pc) symbols) :
    (∀ (i k : Nat) (hi : i < symbols.length),
      (∀ (hn : i + 1 < symbols.length),
        (symbols.get ⟨i, hi⟩).pc + k < (symbols.get ⟨i + 1, hn⟩).pc) →
      (symbols.get ⟨i, hi⟩).cubin_offset + k < 2 ^ 64 →
      transform_pc symbols ((symbols.get ⟨i, hi⟩).pc + k) =
        some ((symbols.get ⟨i, hi⟩).index, (symbols.get ⟨i, hi⟩).cubin_offset + k, k))
    ∧ (∀ (pc : Nat) (h0 : 0 < symbols.length),
      pc < (symbols.get ⟨0, h0⟩).pc → transform_pc symbols pc = none) := by
  constructor
  · intro i k hi hhigh hsmall
    have hlast := takeWhile_getLast_at ((symbols.get ⟨i, hi⟩).pc + k) symbols i hi hsorted
      (Nat.le_add_right _ _) hhigh
    have hsub : (symbols.get ⟨i, hi⟩).pc + k - (symbols.get ⟨i, hi⟩).pc = k := by omega
    unfold transform_pc
    rw [hlast]
    simp only [hsub]
    rw [Nat.add_comm k ((symbols.get ⟨i, hi⟩).cubin_offset), Nat.mod_eq_of_lt hsmall]
  · intro pc h0 hlt
    cases symbols with
    | nil => simp at h0
    | cons x xs =>
      have hx : (decide (x.pc ≤ pc)) = false := by
        simp [decide_eq_false_iff_not]
        exact hlt
      unfold transform_pc
      rw [List.takeWhile_cons]
      simp [hx, List.getLast?]

/-- C5 counterexample: the claim as stated demands function_index = i
(the vector position); the code returns the symbol's index field.  For
the strictly sorted one-symbol vector [(index 5, cubin_offset 0,
pc 100)] at i = 0, k = 0, transform_pc returns function_index 5 ≠ 0. -/
theorem c5_counterexample :
    transform_pc [⟨5, 0, 100⟩] 100 = some (5, 0, 0) ∧ (5 : Nat) ≠ 0 := by
  constructor
  · decide
  · decide

/-- Closed witness for c5_amended_transform_pc. -/
theorem c5_witness :
    transform_pc [⟨7, 3, 10⟩, ⟨9, 50, 20⟩] (10 + 5) = some (7, 3 + 5, 5) ∧
    transform_pc [⟨7, 3, 10⟩, ⟨9, 50, 20⟩] 3 = none := by
  have h := c5_amended_transform_pc [⟨7, 3, 10⟩, ⟨9, 50, 20⟩] (by decide)
  constructor
  · refine h.1 0 5 (by decide) ?_ (by decide)
    intro hn
    show (10 : Nat) + 5 < 20
    decide
  · exact h.2 3 (by decide) (by decide)

/-! Claim C1: range attribution of accepted accesses. -/

def flagsReadOnly : GpuPatchFlags := ⟨false, false, true, false, false, false⟩

def mmOne : MemoryMap := [(⟨4096, 8192⟩, ⟨⟨4096, 8192⟩, 10, 42⟩)]

def recOut : GpuPatchRecord := ⟨100, 0, 0, 1, 4, flagsReadOnly, fun _ => 12288, fun _ _ => 0⟩

/-- C1 counterexample: in the snapshot map holding the single range
[0x1000, 0x2000) with memory_op_id 10, an access at address 0x3000
(flags carrying neither LOCAL nor SHARED) is accepted and attributed to
memory_op_id 10 — one spatial unit-access is recorded under key 10 —
although 0x3000 is outside [0x1000, 0x2000) and hence outside every
range of the snapshot, refuting both halves of the claim. -/
theorem c1_counterexample :
    processRecord envId [] InstructionGraph.init mmOne
      [RedshowAnalysisType.SPATIAL_REDUNDANCY] 23 52 Kernel.init recOut =
      StepResult.ok
        { Kernel.init with read_spatial_trace := [((10, DataType.FLOAT, 100, 0), 1)] }
    ∧ resolveMemoryOpId mmOne flagsReadOnly 12288 = 10
    ∧ ¬ (12288 < (8192 : Nat)) := by
  refine ⟨by decide, by decide, by decide⟩

/-- C1 (amended): the analyzer's range probe returns the last range
whose start is ≤ the address, with no upper-bound (end) check: the
supplying range R of an accepted snapshot-attributed access satisfies
R.start ≤ address, but the address may lie at or beyond R.end; the probe
yields nothing exactly when (for a start-sorted snapshot) the address is
below every range's start, and only such accesses (absent LOCAL/SHARED
flags) are unattributed. -/
theorem c1_amended_range_attribution (mm : MemoryMap) (addr : Nat) :
    (∀ r m, mmLastLe mm addr = some (r, m) →
      (r, m) ∈ mm ∧ r.start ≤ addr ∧
      (m.memory_op_id ≠ 0 → ∀ flags, resolveMemoryOpId mm flags addr = m.memory_op_id))
    ∧ (List.Pairwise (fun p q => p.1.start < q.1.start) mm →
       mmLastLe mm addr = none → ∀ r m, (r, m) ∈ mm → addr < r.start) := by
  constructor
  · intro r m h
    obtain ⟨hmem, hp⟩ := takeWhile_mem_of_getLast _ mm (r, m) h
    refine ⟨hmem, by simpa using hp, ?_⟩
    intro hne flags
    unfold resolveMemoryOpId
    rw [h]
    simp [hne]
  · intro hpair hnone r m hmem
    cases mm with
    | nil => simp at hmem
    | cons x xs =>
      have hx : (decide (x.1.start ≤ addr)) = false := by
        by_contra hcon
        rw [Bool.not_eq_false] at hcon
        unfold mmLastLe at hnone
        rw [List.takeWhile_cons] at hnone
        simp only [hcon, if_true] at hnone
        rw [List.getLast?_eq_none_iff] at hnone
        exact List.cons_ne_nil _ _ hnone
      have hxlt : addr < x.1.start := by
        rw [decide_eq_false_iff_not] at hx
        omega
      rcases List.mem_cons.mp hmem with hhd | htl
      · rw [← hhd] at hxlt
        exact hxlt
      · obtain ⟨hxall, _⟩ := List.pairwise_cons.mp hpair
        exact lt_trans hxlt (hxall _ htl)

/-- Closed witness for c1_amended_range_attribution. -/
theorem c1_witness :
    (((⟨0, 10⟩ : MemoryRange), (⟨⟨0, 10⟩, 3, 4⟩ : Memory)) ∈
        ([(⟨0, 10⟩, ⟨⟨0, 10⟩, 3, 4⟩)] : MemoryMap) ∧
      (0 : Nat) ≤ 5 ∧
      ((3 : Nat) ≠ 0 → ∀ flags,
        resolveMemoryOpId [(⟨0, 10⟩, ⟨⟨0, 10⟩, 3, 4⟩)] flags 5 = 3)) ∧
    (∀ r m, (r, m) ∈ ([(⟨7, 9⟩, ⟨⟨7, 9⟩, 3, 4⟩)] : MemoryMap) → 5 < r.start) := by
  constructor
  · exact (c1_amended_range_attribution [(⟨0, 10⟩, ⟨⟨0, 10⟩, 3, 4⟩)] 5).1
      ⟨0, 10⟩ ⟨⟨0, 10⟩, 3, 4⟩ (by decide)
  · exact (c1_amended_range_attribution [(⟨7, 9⟩, ⟨⟨7, 9⟩, 3, 4⟩)] 5).2
      (by simp) (by decide)

/-! Claim C4: redshow_memory_register snapshot semantics. -/

theorem lookupBy_alInsert_self (m : List (Nat × α)) (k : Nat) (v : α) :
    lookupBy (alInsert m k v) k = some v := by
  induction m with
  | nil => simp [alInsert, lookupBy, List.find?]
  | cons p rest ih =>
    obtain ⟨q, w⟩ := p
    by_cases h1 : k < q
    · simp [alInsert, h1, lookupBy, List.find?]
    · by_cases h2 : k = q
      · subst h2
        simp [alInsert, h1, lookupBy, List.find?]
      · have hb : (k == q) = false := beq_eq_false_iff_ne.mpr h2
        have hb2 : (q == k) = false := beq_eq_false_iff_ne.mpr (Ne.symm h2)
        simp only [alInsert, h1, if_false, hb, lookupBy, List.find?, hb2]
        exact ih

theorem mmFind_mmInsert (m : MemoryMap) (r : MemoryRange) (v : Memory) (q : MemoryRange) :
    mmFind (mmInsert m r v) q = if q.start = r.start then some v else mmFind m q := by
  induction m with
  | nil =>
    by_cases h : q.start = r.start
    · simp [mmInsert, mmFind, List.find?, h]
    · have hb : (r.start == q.start) = false := beq_eq_false_iff_ne.mpr (fun e => h e.symm)
      simp [mmInsert, mmFind, List.find?, hb, h]
  | cons p rest ih =>
    obtain ⟨p1, p2⟩ := p
    by_cases h1 : r.start < p1.start
    · by_cases h : q.start = r.start
      · have hb : (r.start == q.start) = true := beq_iff_eq.mpr h.symm
        simp [mmInsert, h1, mmFind, List.find?, hb, h]
      · have hb : (r.start == q.start) = false := beq_eq_false_iff_ne.mpr (fun e => h e.symm)
        simp [mmInsert, h1, mmFind, List.find?, hb, h]
    · by_cases h2 : r.start = p1.start
      · by_cases h : q.start = r.start
        · have hb : (r.start == q.start) = true := beq_iff_eq.mpr h.symm
          simp [mmInsert, h1, h2, mmFind, List.find?, hb, h]
        · have hb : (r.start == q.start) = false := beq_eq_false_iff_ne.mpr (fun e => h e.symm)
          have hb2 : (p1.start == q.start) = false := by
            rw [← h2]
            exact hb
          have hq : ¬ q.start = p1.start := by
            rw [← h2]
            exact h
          simp [mmInsert, h1, h2, mmFind, List.find?, hb, hb2, h, hq]
      · have hbr : (r.start == p1.start) = false := beq_eq_false_iff_ne.mpr h2
        by_cases h3 : q.start = p1.start
        · have hq : q.start ≠ r.start := by
            rw [h3]
            exact fun e => h2 e.symm
          have hb : (p1.start == q.start) = true := beq_iff_eq.mpr h3.symm
          simp [mmInsert, h1, hbr, mmFind, List.find?, hb, hq]
        · have hb : (p1.start == q.start) = false := beq_eq_false_iff_ne.mpr (fun e => h3 e.symm)
          simp only [mmInsert, h1, if_false, hbr, mmFind, List.find?, hb]
          exact ih

def stDup : GlobalState :=
  { memory_snapshot := [(5, [(⟨4096, 8192⟩, ⟨⟨4096, 8192⟩, 5, 1⟩)])] }

/-- C4 counterexample: with a base snapshot holding exactly the range
[0x1000, 0x2000), registering [0x1000, 0x3000) — a range that does not
already exist in the base — fails with DUPLICATE_ENTRY (the find uses
MemoryRange::operator<, which compares starts only), refuting the "fails
exactly when the same range already exists" part of the claim. -/
theorem c4_counterexample :
    redshow_memory_register stDup 4096 12288 10 7 = (stDup, RedshowResult.DUPLICATE_ENTRY) ∧
    (∀ p, p ∈ ([(⟨4096, 8192⟩, ⟨⟨4096, 8192⟩, 5, 1⟩)] : MemoryMap) →
      ¬ (p.1.start = 4096 ∧ p.1.end_ = 12288)) := by
  refine ⟨rfl, by decide⟩

/-- C4 (amended): redshow_memory_register creates a snapshot keyed
host_op_id whose map is the base map (the greatest prior snapshot key ≤
host_op_id, or empty when no snapshot exists at all) plus the new range;
it fails with DUPLICATE_ENTRY — adding and modifying nothing — exactly
when a range with the same start address (the ranges' comparison key;
the end is not compared) exists in the base; and when snapshots exist
but none has key ≤ host_op_id it fails with NOT_EXIST_ENTRY, changing
nothing. -/
theorem c4_amended_memory_register (st : GlobalState) (start end_ host_op_id memory_id : Nat) :
    (st.memory_snapshot = [] →
      (redshow_memory_register st start end_ host_op_id memory_id).2 = RedshowResult.SUCCESS ∧
      ∃ mp, lookupBy (redshow_memory_register st start end_ host_op_id memory_id).1.memory_snapshot
          host_op_id = some mp ∧
        ∀ q : MemoryRange, mmFind mp q =
          if q.start = start then some ⟨⟨start, end_⟩, host_op_id, memory_id⟩ else none)
    ∧ (∀ key base, alLastLe st.memory_snapshot host_op_id = some (key, base) →
        (mmFind base ⟨start, end_⟩ = none →
          (redshow_memory_register st start end_ host_op_id memory_id).2 =
            RedshowResult.SUCCESS ∧
          ∃ mp, lookupBy
              (redshow_memory_register st start end_ host_op_id memory_id).1.memory_snapshot
              host_op_id = some mp ∧
            ∀ q : MemoryRange, mmFind mp q =
              if q.start = start then some ⟨⟨start, end_⟩, host_op_id, memory_id⟩
              else mmFind base q)
        ∧ (∀ mem, mmFind base ⟨start, end_⟩ = some mem →
            redshow_memory_register st start end_ host_op_id memory_id =
              (st, RedshowResult.DUPLICATE_ENTRY)))
    ∧ (st.memory_snapshot ≠ [] → alLastLe st.memory_snapshot host_op_id = none →
        redshow_memory_register st start end_ host_op_id memory_id =
          (st, RedshowResult.NOT_EXIST_ENTRY)) := by
  refine ⟨?_, ?_, ?_⟩
  · intro hempty
    have hlen : st.memory_snapshot.length = 0 := by rw [hempty]; rfl
    unfold redshow_memory_register
    rw [if_pos hlen]
    refine ⟨rfl, mmInsert [] ⟨start, end_⟩ ⟨⟨start, end_⟩, host_op_id, memory_id⟩, ?_, ?_⟩
    · exact lookupBy_alInsert_self _ _ _
    · intro q
      rw [mmFind_mmInsert]
      rfl
  · intro key base hbase
    have hne : st.memory_snapshot ≠ [] := by
      intro hcon
      rw [hcon] at hbase
      simp [alLastLe, List.takeWhile, List.getLast?] at hbase
    have hlen : ¬ (st.memory_snapshot.length = 0) := by
      intro hcon
      exact hne (List.length_eq_zero.mp hcon)
    constructor
    · intro hfind
      unfold redshow_memory_register
      simp only [hlen, if_false, hbase, hfind]
      refine ⟨by trivial, mmInsert base ⟨start, end_⟩ ⟨⟨start, end_⟩, host_op_id, memory_id⟩, ?_, ?_⟩
      · exact lookupBy_alInsert_self _ _ _
      · intro q
        rw [mmFind_mmInsert]
    · intro mem hfind
      unfold redshow_memory_register
      simp only [hlen, if_false, hbase, hfind]
  · intro hne hnone
    have hlen : ¬ (st.memory_snapshot.length = 0) := by
      intro hcon
      exact hne (List.length_eq_zero.mp hcon)
    unfold redshow_memory_register
    simp only [hlen, if_false, hnone]

/-- Closed witness for c4_amended_memory_register: the empty-history
case, the add case over a base snapshot, and the duplicate-start case. -/
theorem c4_witness :
    ((redshow_memory_register {} 16 32 9 1).2 = RedshowResult.SUCCESS ∧
      ∃ mp, lookupBy (redshow_memory_register {} 16 32 9 1).1.memory_snapshot 9 = some mp ∧
        ∀ q : MemoryRange, mmFind mp q =
          if q.start = 16 then some ⟨⟨16, 32⟩, 9, 1⟩ else none) ∧
    (redshow_memory_register stDup 4096 12288 10 7 = (stDup, RedshowResult.DUPLICATE_ENTRY)) ∧
    ((redshow_memory_register stDup 8192 12288 10 7).2 = RedshowResult.SUCCESS) := by
  refine ⟨?_, ?_, ?_⟩
  · exact (c4_amended_memory_register {} 16 32 9 1).1 rfl
  · exact ((c4_amended_memory_register stDup 4096 12288 10 7).2.1
      5 [(⟨4096, 8192⟩, ⟨⟨4096, 8192⟩, 5, 1⟩)] (by decide)).2 ⟨⟨4096, 8192⟩, 5, 1⟩ (by decide)
  · exact (((c4_amended_memory_register stDup 8192 12288 10 7).2.1
      5 [(⟨4096, 8192⟩, ⟨⟨4096, 8192⟩, 5, 1⟩)] (by decide)).1 (by decide)).1

/-! Claim C2: redshow_cubin_register with a missing .inst file. -/

/-- C2 counterexample: with an empty cubin_map and a filesystem on which
no .inst file exists, registering cubin 1 under path "a/b.cubin" returns
NO_SUCH_FILE yet an entry for cubin 1 is present in the active map
afterwards, refuting "the active cubin map is left unchanged". -/
theorem c2_counterexample :
    (redshow_cubin_register envId {} 1 1 (fun _ => 4096) ("a/b.cubin".toList)).2 =
      RedshowResult.NO_SUCH_FILE ∧
    (lookupBy (redshow_cubin_register envId {} 1 1 (fun _ => 4096)
      ("a/b.cubin".toList)).1.cubin_map 1).isSome = true := by
  refine ⟨by decide, by decide⟩

/-- C2 (amended): when the derived .inst file does not exist and the
cubin_id is not yet active, redshow_cubin_register returns NO_SUCH_FILE
but nonetheless inserts an entry for the cubin_id into the active map
(with the given path and an empty instruction graph). -/
theorem c2_amended_register (env : Env) (st : GlobalState) (cubin_id nsymbols : Nat)
    (symbol_pcs : Nat → Nat) (path ip : List Char)
    (hip : derive_inst_path path = some ip)
    (hmiss : env.inst_file_exists ip = false)
    (hnew : lookupBy st.cubin_map cubin_id = none) :
    (redshow_cubin_register env st cubin_id nsymbols symbol_pcs path).2 =
      RedshowResult.NO_SUCH_FILE ∧
    ∃ c : Cubin,
      lookupBy (redshow_cubin_register env st cubin_id nsymbols symbol_pcs path).1.cubin_map
        cubin_id = some c ∧
      c.cubin_id = cubin_id ∧ c.path = path ∧ c.inst_graph = InstructionGraph.init := by
  have hres : cubin_analyze env path (List.replicate nsymbols Symbol.init)
      InstructionGraph.init =
      (RedshowResult.NO_SUCH_FILE, List.replicate nsymbols Symbol.init,
        InstructionGraph.init) := by
    unfold cubin_analyze
    rw [hip]
    simp [hmiss]
  simp only [redshow_cubin_register, hres, hnew]
  norm_num
  exact ⟨_, lookupBy_setBy_self _ _ _, rfl, rfl, rfl⟩

/-- Closed witness for c2_amended_register. -/
theorem c2_witness :
    (redshow_cubin_register envId {} 1 1 (fun _ => 4096) ("a/b.cubin".toList)).2 =
      RedshowResult.NO_SUCH_FILE ∧
    ∃ c : Cubin,
      lookupBy (redshow_cubin_register envId {} 1 1 (fun _ => 4096)
        ("a/b.cubin".toList)).1.cubin_map 1 = some c ∧
      c.cubin_id = 1 ∧ c.path = "a/b.cubin".toList ∧ c.inst_graph = InstructionGraph.init :=
  c2_amended_register envId {} 1 1 (fun _ => 4096) ("a/b.cubin".toList)
    ("a/b.cubin/structs/nvidia/b.cubin.inst".toList) (by decide) (by decide) (by decide)

/-! Claim C6: the default access-kind fallback. -/

def flagsC6 : GpuPatchFlags := ⟨false, false, true, false, false, false⟩

def instC6 : Instruction := ⟨[], 16, 0, [], [], [], none⟩

def gC6 : InstructionGraph := ⟨[], [], [(0, instC6)]⟩

/-- C6: whenever the instruction graph is empty, or the node at
cubin_offset exists and the graph-derived kind (load_data_type for READ,
store_data_type for WRITE, the default-constructed UNKNOWN kind when
neither flag is set) has type UNKNOWN, the analyzer uses the default
access kind {type = FLOAT, vec_size = size * 8,
unit_size = min(WARP_SIZE, vec_size * 8)} for a record of that size. -/
theorem c6_default_access_kind (env : Env) (g : InstructionGraph) (cubin_offset : Nat)
    (flags : GpuPatchFlags) (size : Nat) :
    (g.nodes = [] →
      computeAccessType env g cubin_offset flags size =
        Except.ok ⟨size * 8, min GPU_PATCH_WARP_SIZE ((size * 8) * 8), DataType.FLOAT⟩)
    ∧ (∀ inst, g.node cubin_offset = some inst →
        (if flags.read then env.load_data_type inst.pc g
         else if flags.write then env.store_data_type inst.pc g
         else AccessType.init).type = DataType.UNKNOWN →
        computeAccessType env g cubin_offset flags size =
          Except.ok ⟨size * 8, min GPU_PATCH_WARP_SIZE ((size * 8) * 8), DataType.FLOAT⟩) := by
  constructor
  · intro hempty
    have hsz : g.size = 0 := by rw [InstructionGraph.size, hempty]; rfl
    unfold computeAccessType
    rw [if_neg (fun hc => hc hsz)]
    simp [AccessType.init]
  · intro inst hnode hunk
    have hne : g.size ≠ 0 := by
      intro hcon
      have hnil : g.nodes = [] := List.length_eq_zero.mp hcon
      rw [InstructionGraph.node, hnil] at hnode
      simp [lookupBy, List.find?] at hnode
    unfold computeAccessType
    rw [if_pos hne, hnode]
    simp only []
    rw [if_pos hunk]

/-- Closed witness for c6_default_access_kind: the empty graph and the
UNKNOWN-derived-kind cases at size 4 (32-bit access). -/
theorem c6_witness :
    computeAccessType envId InstructionGraph.init 0 flagsC6 4 =
      Except.ok ⟨32, 32, DataType.FLOAT⟩ ∧
    computeAccessType envId gC6 0 flagsC6 4 =
      Except.ok ⟨32, 32, DataType.FLOAT⟩ := by
  constructor
  · exact (c6_default_access_kind envId InstructionGraph.init 0 flagsC6 4).1 rfl
  · exact (c6_default_access_kind envId gC6 0 flagsC6 4).2 instC6 (by decide) (by decide)

/-! Claim C7: the BLOCK_EXIT handling. -/

theorem ttHas_ttErase (t : TemporalTrace) (x tid : ThreadId) :
    ttHas (ttErase t x) tid = true ↔ (ttHas t tid = true ∧ tid ≠ x) := by
  unfold ttHas ttErase
  rw [List.any_eq_true, List.any_eq_true]
  constructor
  · rintro ⟨p, hmem, hbeq⟩
    rw [List.mem_filter] at hmem
    obtain ⟨hpm, hne⟩ := hmem
    refine ⟨⟨p, hpm, hbeq⟩, ?_⟩
    have h1 : p.1 = tid := beq_iff_eq.mp hbeq
    have h2 : p.1 ≠ x := by simpa using hne
    rw [← h1]
    exact h2
  · rintro ⟨⟨p, hpm, hbeq⟩, hne⟩
    refine ⟨p, ?_, hbeq⟩
    rw [List.mem_filter]
    refine ⟨hpm, ?_⟩
    have h1 : p.1 = tid := beq_iff_eq.mp hbeq
    simpa [h1] using hne

theorem ttHas_exitEraseStep_read (r : GpuPatchRecord) (k : Kernel) (j : Nat) (tid : ThreadId) :
    ttHas (exitEraseStep r k j).read_temporal_trace tid = true ↔
      (ttHas k.read_temporal_trace tid = true ∧
       (r.active.testBit j = true →
         tid ≠ ⟨r.flat_block_id,
           r.flat_thread_id / GPU_PATCH_WARP_SIZE * GPU_PATCH_WARP_SIZE + j⟩)) := by
  unfold exitEraseStep
  by_cases hb : r.active.testBit j
  · simp only [hb, if_true]
    rw [ttHas_ttErase]
    simp [hb]
  · simp [hb]

theorem ttHas_exitEraseStep_write (r : GpuPatchRecord) (k : Kernel) (j : Nat) (tid : ThreadId) :
    ttHas (exitEraseStep r k j).write_temporal_trace tid = true ↔
      (ttHas k.write_temporal_trace tid = true ∧
       (r.active.testBit j = true →
         tid ≠ ⟨r.flat_block_id,
           r.flat_thread_id / GPU_PATCH_WARP_SIZE * GPU_PATCH_WARP_SIZE + j⟩)) := by
  unfold exitEraseStep
  by_cases hb : r.active.testBit j
  · simp only [hb, if_true]
    rw [ttHas_ttErase]
    simp [hb]
  · simp [hb]

theorem ttHas_exitEraseList_read (r : GpuPatchRecord) :
    ∀ (js : List Nat) (k : Kernel) (tid : ThreadId),
      ttHas (exitEraseList r js k).read_temporal_trace tid = true ↔
        (ttHas k.read_temporal_trace tid = true ∧
         ∀ j ∈ js, r.active.testBit j = true →
           tid ≠ ⟨r.flat_block_id,
             r.flat_thread_id / GPU_PATCH_WARP_SIZE * GPU_PATCH_WARP_SIZE + j⟩) := by
  intro js
  induction js with
  | nil =>
    intro k tid
    simp [exitEraseList]
  | cons a js ih =>
    intro k tid
    have hstep : exitEraseList r (a :: js) k = exitEraseList r js (exitEraseStep r k a) := rfl
    rw [hstep, ih, ttHas_exitEraseStep_read, List.forall_mem_cons]
    tauto

theorem ttHas_exitEraseList_write (r : GpuPatchRecord) :
    ∀ (js : List Nat) (k : Kernel) (tid : ThreadId),
      ttHas (exitEraseList r js k).write_temporal_trace tid = true ↔
        (ttHas k.write_temporal_trace tid = true ∧
         ∀ j ∈ js, r.active.testBit j = true →
           tid ≠ ⟨r.flat_block_id,
             r.flat_thread_id / GPU_PATCH_WARP_SIZE * GPU_PATCH_WARP_SIZE + j⟩) := by
  intro js
  induction js with
  | nil =>
    intro k tid
    simp [exitEraseList]
  | cons a js ih =>
    intro k tid
    have hstep : exitEraseList r (a :: js) k = exitEraseList r js (exitEraseStep r k a) := rfl
    rw [hstep, ih, ttHas_exitEraseStep_write, List.forall_mem_cons]
    tauto

theorem exitEraseList_frame (r : GpuPatchRecord) :
    ∀ (js : List Nat) (k : Kernel),
      (exitEraseList r js k).kernel_id = k.kernel_id ∧
      (exitEraseList r js k).cubin_id = k.cubin_id ∧
      (exitEraseList r js k).func_index = k.func_index ∧
      (exitEraseList r js k).func_addr = k.func_addr ∧
      (exitEraseList r js k).read_spatial_trace = k.read_spatial_trace ∧
      (exitEraseList r js k).write_spatial_trace = k.write_spatial_trace ∧
      (exitEraseList r js k).read_pc_pairs = k.read_pc_pairs ∧
      (exitEraseList r js k).write_pc_pairs = k.write_pc_pairs := by
  intro js
  induction js with
  | nil =>
    intro k
    exact ⟨rfl, rfl, rfl, rfl, rfl, rfl, rfl, rfl⟩
  | cons a js ih =>
    intro k
    have hstep : (exitEraseStep r k a).kernel_id = k.kernel_id ∧
        (exitEraseStep r k a).cubin_id = k.cubin_id ∧
        (exitEraseStep r k a).func_index = k.func_index ∧
        (exitEraseStep r k a).func_addr = k.func_addr ∧
        (exitEraseStep r k a).read_spatial_trace = k.read_spatial_trace ∧
        (exitEraseStep r k a).write_spatial_trace = k.write_spatial_trace ∧
        (exitEraseStep r k a).read_pc_pairs = k.read_pc_pairs ∧
        (exitEraseStep r k a).write_pc_pairs = k.write_pc_pairs := by
      unfold exitEraseStep
      by_cases hb : r.active.testBit a <;> simp [hb]
    have hch : exitEraseList r (a :: js) k = exitEraseList r js (exitEraseStep r k a) := rfl
    obtain ⟨i1, i2, i3, i4, i5, i6, i7, i8⟩ := ih (exitEraseStep r k a)
    obtain ⟨s1, s2, s3, s4, s5, s6, s7, s8⟩ := hstep
    rw [hch]
    exact ⟨i1.trans s1, i2.trans s2, i3.trans s3, i4.trans s4,
      i5.trans s5, i6.trans s6, i7.trans s7, i8.trans s8⟩

/-- C7 (amended): on a record with the BLOCK_EXIT flag, without the
BLOCK_ENTER flag (which takes precedence) and with size ≠ 0 (empty
records are skipped), the warp-aligned ThreadId of every lane set in the
active mask is removed from both temporal traces, no other ThreadId is
removed, and no other analyzer state changes. -/
theorem c7_amended_block_exit (env : Env) (symbols : List Symbol) (g : InstructionGraph)
    (mm : MemoryMap) (ae : List RedshowAnalysisType) (d32 d64 : Nat) (k : Kernel)
    (r : GpuPatchRecord) (hsize : r.size ≠ 0) (henter : r.flags.block_enter = false)
    (hexit : r.flags.block_exit = true) :
    ∃ kk, processRecord env symbols g mm ae d32 d64 k r = StepResult.ok kk
      ∧ (∀ tid, ttHas kk.read_temporal_trace tid = true ↔
          (ttHas k.read_temporal_trace tid = true ∧
           ∀ j, j < GPU_PATCH_WARP_SIZE → r.active.testBit j = true →
             tid ≠ ⟨r.flat_block_id,
               r.flat_thread_id / GPU_PATCH_WARP_SIZE * GPU_PATCH_WARP_SIZE + j⟩))
      ∧ (∀ tid, ttHas kk.write_temporal_trace tid = true ↔
          (ttHas k.write_temporal_trace tid = true ∧
           ∀ j, j < GPU_PATCH_WARP_SIZE → r.active.testBit j = true →
             tid ≠ ⟨r.flat_block_id,
               r.flat_thread_id / GPU_PATCH_WARP_SIZE * GPU_PATCH_WARP_SIZE + j⟩))
      ∧ kk.read_spatial_trace = k.read_spatial_trace
      ∧ kk.write_spatial_trace = k.write_spatial_trace
      ∧ kk.read_pc_pairs = k.read_pc_pairs
      ∧ kk.write_pc_pairs = k.write_pc_pairs
      ∧ kk.kernel_id = k.kernel_id
      ∧ kk.cubin_id = k.cubin_id := by
  refine ⟨exitEraseList r (List.range GPU_PATCH_WARP_SIZE) k, ?_, ?_, ?_, ?_, ?_, ?_, ?_, ?_, ?_⟩
  · unfold processRecord
    rw [if_neg hsize]
    simp only [henter, Bool.false_eq_true, if_false, hexit, if_true]
  · intro tid
    rw [ttHas_exitEraseList_read]
    constructor
    · rintro ⟨h1, h2⟩
      exact ⟨h1, fun j hj => h2 j (List.mem_range.mpr hj)⟩
    · rintro ⟨h1, h2⟩
      exact ⟨h1, fun j hj => h2 j (List.mem_range.mp hj)⟩
  · intro tid
    rw [ttHas_exitEraseList_write]
    constructor
    · rintro ⟨h1, h2⟩
      exact ⟨h1, fun j hj => h2 j (List.mem_range.mpr hj)⟩
    · rintro ⟨h1, h2⟩
      exact ⟨h1, fun j hj => h2 j (List.mem_range.mp hj)⟩
  · exact (exitEraseList_frame r _ k).2.2.2.2.1
  · exact (exitEraseList_frame r _ k).2.2.2.2.2.1
  · exact (exitEraseList_frame r _ k).2.2.2.2.2.2.1
  · exact (exitEraseList_frame r _ k).2.2.2.2.2.2.2
  · exact (exitEraseList_frame r _ k).1
  · exact (exitEraseList_frame r _ k).2.1

def flagsBothC7 : GpuPatchFlags := ⟨true, true, false, false, false, false⟩

def recBoth : GpuPatchRecord := ⟨0, 0, 0, 1, 4, flagsBothC7, fun _ => 0, fun _ _ => 0⟩

def kWithTid : Kernel := { Kernel.init with read_temporal_trace := [(⟨0, 0⟩, [(0, (0, 0))])] }

/-- C7 counterexample: recBoth carries the BLOCK_EXIT flag, lane 0 is
active, and its warp-aligned ThreadId (0, 0) has an entry in the read
temporal trace — the claim demands its removal — yet processRecord
returns the kernel unchanged, because the record also carries
BLOCK_ENTER, which the code tests first. -/
theorem c7_counterexample :
    recBoth.flags.block_exit = true ∧
    recBoth.active.testBit 0 = true ∧
    processRecord envId [] InstructionGraph.init [] [] 23 52 kWithTid recBoth =
      StepResult.ok kWithTid ∧
    ttHas kWithTid.read_temporal_trace ⟨0, 0⟩ = true := by
  refine ⟨by decide, by decide, by decide, by decide⟩

def flagsExitC7 : GpuPatchFlags := ⟨false, true, false, false, false, false⟩

def recExit : GpuPatchRecord := ⟨0, 3, 7, 1, 4, flagsExitC7, fun _ => 0, fun _ _ => 0⟩

/-- Closed witness for c7_amended_block_exit. -/
theorem c7_witness :
    (recExit.size ≠ 0 ∧ recExit.flags.block_enter = false ∧
      recExit.flags.block_exit = true) ∧
    (∃ kk, processRecord envId [] InstructionGraph.init [] [] 23 52 kWithTid recExit =
        StepResult.ok kk
      ∧ (∀ tid, ttHas kk.read_temporal_trace tid = true ↔
          (ttHas kWithTid.read_temporal_trace tid = true ∧
           ∀ j, j < GPU_PATCH_WARP_SIZE → recExit.active.testBit j = true →
             tid ≠ ⟨recExit.flat_block_id,
               recExit.flat_thread_id / GPU_PATCH_WARP_SIZE * GPU_PATCH_WARP_SIZE + j⟩))
      ∧ (∀ tid, ttHas kk.write_temporal_trace tid = true ↔
          (ttHas kWithTid.write_temporal_trace tid = true ∧
           ∀ j, j < GPU_PATCH_WARP_SIZE → recExit.active.testBit j = true →
             tid ≠ ⟨recExit.flat_block_id,
               recExit.flat_thread_id / GPU_PATCH_WARP_SIZE * GPU_PATCH_WARP_SIZE + j⟩))
      ∧ kk.read_spatial_trace = kWithTid.read_spatial_trace
      ∧ kk.write_spatial_trace = kWithTid.write_spatial_trace
      ∧ kk.read_pc_pairs = kWithTid.read_pc_pairs
      ∧ kk.write_pc_pairs = kWithTid.write_pc_pairs
      ∧ kk.kernel_id = kWithTid.kernel_id
      ∧ kk.cubin_id = kWithTid.cubin_id) :=
  ⟨⟨by decide, by decide, by decide⟩,
   c7_amended_block_exit envId [] InstructionGraph.init [] [] 23 52 kWithTid recExit
     (by decide) (by decide) (by decide)⟩

/-! Claim C10: redshow_analyze always creates the kernel entry. -/

/-- The kernel carried by a step outcome. -/
def stepKernel : StepResult → Kernel
  | StepResult.ok k => k
  | StepResult.thrown k => k

/-- The kernel carried by a trace_analyze outcome. -/
def taKernel : TAOutcome → Kernel
  | TAOutcome.ret _ k => k
  | TAOutcome.thrown k => k

theorem applyAnalyses_ids (ae : List RedshowAnalysisType) (flags : GpuPatchFlags)
    (pc : Nat) (tid : ThreadId) (addr value : Nat) (uat : AccessType) (mid : Nat)
    (k : Kernel) :
    (applyAnalyses ae flags pc tid addr value uat mid k).kernel_id = k.kernel_id ∧
    (applyAnalyses ae flags pc tid addr value uat mid k).cubin_id = k.cubin_id := by
  unfold applyAnalyses
  refine @foldl_preserves _ _
    (fun b => b.kernel_id = k.kernel_id ∧ b.cubin_id = k.cubin_id) _ ?_ ae k ⟨rfl, rfl⟩
  rintro b a ⟨h1, h2⟩
  cases a <;> by_cases hr : flags.read <;> simp [hr, h1, h2]

theorem processUnits_ids (env : Env) (ae : List RedshowAnalysisType) (d32 d64 : Nat)
    (record : GpuPatchRecord) (access_type : AccessType) (tid : ThreadId)
    (mid j : Nat) (k : Kernel) :
    (processUnits env ae d32 d64 record access_type tid mid j k).kernel_id = k.kernel_id ∧
    (processUnits env ae d32 d64 record access_type tid mid j k).cubin_id = k.cubin_id := by
  unfold processUnits
  refine @foldl_preserves _ _
    (fun b => b.kernel_id = k.kernel_id ∧ b.cubin_id = k.cubin_id) _ ?_ _ k ⟨rfl, rfl⟩
  rintro b m ⟨h1, h2⟩
  constructor
  · exact ((applyAnalyses_ids _ _ _ _ _ _ _ _ b).1).trans h1
  · exact ((applyAnalyses_ids _ _ _ _ _ _ _ _ b).2).trans h2

theorem processLanes_ids (env : Env) (mm : MemoryMap) (ae : List RedshowAnalysisType)
    (d32 d64 : Nat) (record : GpuPatchRecord) (access_type : AccessType) (k : Kernel) :
    (processLanes env mm ae d32 d64 record access_type k).kernel_id = k.kernel_id ∧
    (processLanes env mm ae d32 d64 record access_type k).cubin_id = k.cubin_id := by
  unfold processLanes
  refine @foldl_preserves _ _
    (fun b => b.kernel_id = k.kernel_id ∧ b.cubin_id = k.cubin_id) _ ?_ _ k ⟨rfl, rfl⟩
  rintro b j ⟨h1, h2⟩
  by_cases hb : record.active.testBit j
  · simp only [hb, if_true]
    by_cases hz : resolveMemoryOpId mm record.flags (record.address j) = 0
    · simp [hz, h1, h2]
    · simp only [hz, if_false]
      obtain ⟨a1, a2⟩ := processUnits_ids env ae d32 d64 record access_type
        ⟨record.flat_block_id,
          record.flat_thread_id / GPU_PATCH_WARP_SIZE * GPU_PATCH_WARP_SIZE + j⟩
        (resolveMemoryOpId mm record.flags (record.address j)) j b
      exact ⟨a1.trans h1, a2.trans h2⟩
  · simp [hb, h1, h2]

theorem processRecord_ids (env : Env) (symbols : List Symbol) (g : InstructionGraph)
    (mm : MemoryMap) (ae : List RedshowAnalysisType) (d32 d64 : Nat) (k : Kernel)
    (record : GpuPatchRecord) :
    (stepKernel (processRecord env symbols g mm ae d32 d64 k record)).kernel_id =
      k.kernel_id ∧
    (stepKernel (processRecord env symbols g mm ae d32 d64 k record)).cubin_id =
      k.cubin_id := by
  unfold processRecord
  by_cases h1 : record.size = 0
  · simp [h1, stepKernel]
  · rw [if_neg h1]
    by_cases h2 : record.flags.block_enter
    · simp [h2, stepKernel]
    · simp only [h2, Bool.false_eq_true, if_false]
      by_cases h3 : record.flags.block_exit
      · simp only [h3, if_true, stepKernel]
        exact ⟨(exitEraseList_frame record _ k).1, (exitEraseList_frame record _ k).2.1⟩
      · simp only [h3, Bool.false_eq_true, if_false]
        cases hca : computeAccessType env g (recordCubinOffset symbols record.pc)
            record.flags record.size with
        | error e => simp [stepKernel]
        | ok at2 =>
          simp only [stepKernel]
          exact processLanes_ids env mm ae d32 d64 record at2 k

theorem runRecords_ids (env : Env) (symbols : List Symbol) (g : InstructionGraph)
    (mm : MemoryMap) (ae : List RedshowAnalysisType) (d32 d64 : Nat) (k : Kernel)
    (trace_data : TraceData) :
    (stepKernel (runRecords env symbols g mm ae d32 d64 k trace_data)).kernel_id =
      k.kernel_id ∧
    (stepKernel (runRecords env symbols g mm ae d32 d64 k trace_data)).cubin_id =
      k.cubin_id := by
  unfold runRecords
  refine @foldl_preserves _ _
    (fun s => (stepKernel s).kernel_id = k.kernel_id ∧ (stepKernel s).cubin_id = k.cubin_id)
    _ ?_ _ (StepResult.ok k) ⟨rfl, rfl⟩
  rintro s i ⟨h1, h2⟩
  cases s with
  | thrown kk => exact ⟨h1, h2⟩
  | ok kk =>
    obtain ⟨p1, p2⟩ := processRecord_ids env symbols g mm ae d32 d64 kk (trace_data.records i)
    simp only [stepKernel] at h1 h2
    exact ⟨p1.trans h1, p2.trans h2⟩

theorem trace_analyze_ids (env : Env) (st : GlobalState) (kernel : Kernel)
    (host_op_id : Nat) (trace_data : TraceData) (st2 : GlobalState) (out : TAOutcome)
    (h : trace_analyze env st kernel host_op_id trace_data = (st2, out)) :
    (taKernel out).kernel_id = kernel.kernel_id ∧
    (taKernel out).cubin_id = kernel.cubin_id := by
  unfold trace_analyze at h
  split at h
  · cases h
    exact ⟨rfl, rfl⟩
  · rename_i st1 c heqres
    split at h
    · cases h
      exact ⟨rfl, rfl⟩
    · rename_i snap heqsnap
      have hr := runRecords_ids env c.symbols c.inst_graph snap.2
        st1.analysis_enabled st1.decimal_degree_f32 st1.decimal_degree_f64 kernel trace_data
      split at h
      · rename_i kk hrun
        cases h
        rw [hrun] at hr
        simpa [stepKernel, taKernel] using hr
      · rename_i kk hrun
        cases h
        rw [hrun] at hr
        simpa [stepKernel, taKernel] using hr

theorem kernelLookup_setKernel_self (km : List (Nat × List (Nat × Kernel)))
    (thread_id kernel_id : Nat) (k : Kernel) :
    kernelLookup (setKernel km thread_id kernel_id k) thread_id kernel_id = some k := by
  unfold kernelLookup setKernel
  rw [lookupBy_setBy_self]
  simp only [Option.getD_some]
  exact lookupBy_setBy_self _ _ _

/-- C10: every call to redshow_analyze — whatever its outcome, including
the error and escaped-exception paths — leaves an entry
kernel_map[thread_id][kernel_id] whose kernel_id and cubin_id fields are
set to the call's arguments; no path removes or rolls back the
insertion. -/
theorem c10_kernel_entry_created (env : Env) (st : GlobalState)
    (thread_id cubin_id kernel_id host_op_id : Nat) (trace_data : TraceData) :
    ∃ k, kernelLookup (redshow_analyze env st thread_id cubin_id kernel_id host_op_id
        trace_data).1.kernel_map thread_id kernel_id = some k ∧
      k.kernel_id = kernel_id ∧ k.cubin_id = cubin_id := by
  simp only [redshow_analyze]
  split
  · rename_i st2 k heq
    have hids := trace_analyze_ids env _ _ host_op_id trace_data st2 (TAOutcome.thrown k) heq
    simp only [taKernel] at hids
    exact ⟨k, kernelLookup_setKernel_self _ _ _ _, hids.1, hids.2⟩
  · rename_i st2 r k heq
    have hids := trace_analyze_ids env _ _ host_op_id trace_data st2 (TAOutcome.ret r k) heq
    simp only [taKernel] at hids
    by_cases hr : r = RedshowResult.SUCCESS
    · rw [if_pos hr]
      by_cases hcb : st2.log_data_callback = true
      · rw [if_pos hcb]
        exact ⟨k, kernelLookup_setKernel_self _ _ _ _, hids.1, hids.2⟩
      · rw [if_neg hcb]
        exact ⟨k, kernelLookup_setKernel_self _ _ _ _, hids.1, hids.2⟩
    · rw [if_neg hr]
      exact ⟨k, kernelLookup_setKernel_self _ _ _ _, hids.1, hids.2⟩

/-! Claim C3: no exception escapes the API boundary. -/

def instC3 : Instruction := ⟨[], 16, 0, [], [], [], none⟩

def gC3 : InstructionGraph := ⟨[], [], [(16, instC3)]⟩

def cubinC3 : Cubin := ⟨1, [], [⟨0, 0, 0⟩], gC3⟩

def stC3 : GlobalState := { cubin_map := [(1, cubinC3)], memory_snapshot := [(5, [])] }

def flagsC3 : GpuPatchFlags := ⟨false, false, true, false, false, false⟩

def recC3 : GpuPatchRecord := ⟨0, 0, 0, 1, 4, flagsC3, fun _ => 0, fun _ _ => 0⟩

def traceC3 : TraceData := ⟨1, fun _ => recC3⟩

def kC3 : Kernel := { Kernel.init with cubin_id := 1 }

/-- C3 (code bug): on a registered cubin whose instruction graph is
non-empty but holds no node at the resolved cubin_offset (here the
record pc resolves to cubin_offset 0 while the graph only holds a node
at 16), trace_analyze does not return a result code: the
std::out_of_range thrown by InstructionGraph::node (_nodes.at) escapes —
modelled by the thrown outcome — contradicting the spec's guarantee that
errors surface as codes and no exception crosses the API boundary. -/
theorem c3_exception_escapes :
    (trace_analyze envId stC3 kC3 10 traceC3).2 = TAOutcome.thrown kC3 ∧
    gC3.size ≠ 0 ∧ gC3.node 0 = none := by
  refine ⟨by decide, by decide, by decide⟩

/-! Claim C8: analyze with an empty trace buffer. -/

theorem trace_analyze_empty (env : Env) (st : GlobalState) (kernel : Kernel)
    (host_op_id : Nat) (trace_data : TraceData) (c : Cubin) (snap : Nat × MemoryMap)
    (hcubin : lookupBy st.cubin_map kernel.cubin_id = some c)
    (hsnap : alLastLe st.memory_snapshot host_op_id = some snap)
    (hhead : trace_data.head_index = 0) :
    trace_analyze env st kernel host_op_id trace_data =
      (st, TAOutcome.ret RedshowResult.SUCCESS kernel) := by
  unfold trace_analyze resolveCubin runRecords
  rw [hcubin]
  simp [hsnap, hhead]

/-- C8 (amended): a redshow_analyze call whose trace buffer has
head_index 0 returns SUCCESS — provided the cubin_id is analyzable, some
snapshot with key ≤ host_op_id exists (otherwise NOT_EXIST_ENTRY) and
the log-data callback is registered (otherwise NOT_REGISTER_CALLBACK) —
and contributes no accesses: the kernel entry after the call carries the
prior accumulators unchanged (only its kernel_id and cubin_id fields are
set). -/
theorem c8_amended_empty_trace (env : Env) (st : GlobalState)
    (thread_id cubin_id kernel_id host_op_id : Nat) (trace_data : TraceData)
    (c : Cubin) (hcubin : lookupBy st.cubin_map cubin_id = some c)
    (snap : Nat × MemoryMap)
    (hsnap : alLastLe st.memory_snapshot host_op_id = some snap)
    (hcb : st.log_data_callback = true)
    (hhead : trace_data.head_index = 0) :
    (redshow_analyze env st thread_id cubin_id kernel_id host_op_id trace_data).2 =
      APIOutcome.ret RedshowResult.SUCCESS ∧
    kernelLookup (redshow_analyze env st thread_id cubin_id kernel_id host_op_id
        trace_data).1.kernel_map thread_id kernel_id =
      some { (lookupBy ((lookupBy st.kernel_map thread_id).getD []) kernel_id).getD
              Kernel.init with kernel_id := kernel_id, cubin_id := cubin_id } := by
  have hta : ∀ (st1 : GlobalState) (k1 : Kernel),
      st1.cubin_map = st.cubin_map → st1.memory_snapshot = st.memory_snapshot →
      k1.cubin_id = cubin_id →
      trace_analyze env st1 k1 host_op_id trace_data =
        (st1, TAOutcome.ret RedshowResult.SUCCESS k1) := by
    intro st1 k1 h1 h2 h3
    exact trace_analyze_empty env st1 k1 host_op_id trace_data c snap
      (by rw [h1, h3]; exact hcubin) (by rw [h2]; exact hsnap) hhead
  simp only [redshow_analyze]
  rw [hta]
  · simp [hcb, kernelLookup, setKernel, lookupBy_setBy_self]
  · rfl
  · rfl
  · rfl

def cubinC8 : Cubin := ⟨1, [], [], InstructionGraph.init⟩

def stC8 : GlobalState := { cubin_map := [(1, cubinC8)], log_data_callback := true }

def flagsNullC8 : GpuPatchFlags := ⟨false, false, false, false, false, false⟩

def recNull : GpuPatchRecord := ⟨0, 0, 0, 0, 0, flagsNullC8, fun _ => 0, fun _ _ => 0⟩

def traceEmpty : TraceData := ⟨0, fun _ => recNull⟩

/-- C8 counterexample: cubin 1 is registered (analyzable) and a log
callback is present, the trace buffer has head_index 0, yet the call
returns NOT_EXIST_ENTRY — not SUCCESS — because no memory snapshot
exists; the snapshot lookup happens before the (empty) record loop. -/
theorem c8_counterexample :
    traceEmpty.head_index = 0 ∧
    lookupBy stC8.cubin_map 1 = some cubinC8 ∧
    stC8.log_data_callback = true ∧
    (redshow_analyze envId stC8 3 1 7 10 traceEmpty).2 =
      APIOutcome.ret RedshowResult.NOT_EXIST_ENTRY := by
  refine ⟨by decide, by decide, by decide, by decide⟩

def stC8ok : GlobalState :=
  { cubin_map := [(1, cubinC8)], memory_snapshot := [(5, [])],
    log_data_callback := true }

/-- Closed witness for c8_amended_empty_trace. -/
theorem c8_witness :
    (lookupBy stC8ok.cubin_map 1 = some cubinC8 ∧
     alLastLe stC8ok.memory_snapshot 10 = some (5, []) ∧
     stC8ok.log_data_callback = true ∧ traceEmpty.head_index = 0) ∧
    ((redshow_analyze envId stC8ok 3 1 7 10 traceEmpty).2 =
        APIOutcome.ret RedshowResult.SUCCESS ∧
     kernelLookup (redshow_analyze envId stC8ok 3 1 7 10 traceEmpty).1.kernel_map 3 7 =
       some { (lookupBy ((lookupBy stC8ok.kernel_map 3).getD []) 7).getD Kernel.init
              with kernel_id := 7, cubin_id := 1 }) :=
  ⟨⟨by decide, by decide, by decide, by decide⟩,
   c8_amended_empty_trace envId stC8ok 3 1 7 10 traceEmpty cubinC8 (by decide)
     (5, []) (by decide) (by decide) (by decide)⟩

end Redshow
